import Mathlib

/-!
Shallow embedding of the attribute-verification oracle of the qa_common
repository (files `fsapi/api.py`, `fsapi/static.py`, `fsapi/filesystem.py`).

Modelling conventions:
* Python `FileInfo` objects (both `StatInfo` and `ExtraInfo`) are modelled as
  total maps `String → Int` from attribute names to values; attribute access
  `obj.__getattribute__(name)` is function application.  All executed paths
  only ever access names from the fixed vocabularies `STAT_INFO_ATTRS` /
  `EXTRA_INFO_ATTRS`, so totality is harmless.
* The runtime test `isinstance(f_info1, StatInfo)` inside `compare_file_info`
  is passed in as the boolean `isStat`; at every call site of the source the
  outcome of this test is statically determined by the argument's provenance.
* Fallible Python code is modelled in `Except PyErr`; `assert` raises
  `PyErr.assertionError`, while attribute access / subscripting of `None` and
  dictionary lookup failures raise `PyErr.pythonError`.  Assertion message
  strings are abbreviated to fixed literals (no claim depends on their text).
* Timezone-aware Python datetimes are modelled as the UTC instant in
  microseconds since the Unix epoch together with the utcoffset in seconds.
* The external filesystem (the bound native API) is modelled as oracles in
  `CheckEnv`: `getAttrBefore` / `getAttrAfter` give the `get_attr` result for
  a path before resp. after the operation under test, and `parentAttr` /
  `targetAttr` are the inline pre/post attribute payloads the operation
  returned.
-/

namespace Fsapi

/-- Errors a modelled Python call can raise. -/
inductive PyErr where
  | assertionError (msg : String)
  | pythonError (msg : String)
deriving DecidableEq, Repr

/-- `assert cond, msg` -/
def pyAssert (b : Bool) (msg : String) : Except PyErr Unit :=
  if b then .ok () else .error (.assertionError msg)

/-- A `StatInfo` or `ExtraInfo` object: a map from attribute names to values. -/
def FileInfo : Type := String → Int

/-- `EPOCH_AS_FILETIME` from `fsapi/static.py`. -/
def EPOCH_AS_FILETIME : Int := 116444736000000000

/-- `STAT_INFO_ATTRS` from `fsapi/static.py`. -/
def STAT_INFO_ATTRS : List String :=
  ["accessed_time", "bytes_used", "created_time", "gid", "length",
   "metadata_modified_time", "nlink", "spec_data", "uid", "unix_mode",
   "userdata_modified_time"]

/-- `EXTRA_INFO_ATTRS` from `fsapi/static.py`. -/
def EXTRA_INFO_ATTRS : List String :=
  ["dos_flags", "file_feature_flags", "file_type", "parent_cookie",
   "security_descriptor_object_number", "software_metadata_object_number",
   "virtual_volume_tag_number", "virus_scan_version_number",
   "volume_virus_scan_id"]

namespace AttributeFlags

/-- `AttributeFlags.PRE_OP` -/
def PRE_OP : Int := 0x00000001

/-- `AttributeFlags.STAT_POST_OP` -/
def STAT_POST_OP : Int := 0x00000002

/-- `AttributeFlags.EXTRA_POST_OP` -/
def EXTRA_POST_OP : Int := 0x00000004

end AttributeFlags

namespace OpRequirements

/-- `OpRequirements.FIELD_FLAG_DICT` from `fsapi/static.py`. -/
def FIELD_FLAG_DICT : List (String × Int) :=
  [("return_pre_op_attr", 0x40),
   ("return_stat_post_op_attr", 0x80),
   ("return_extra_post_op_attr", 0x01),
   ("metadata_modified_time", 0x02),
   ("userdata_modified_time", 0x04),
   ("accessed_time", 0x08),
   ("created_time", 0x10),
   ("dos_flags", 0x20)]

/-- `OpRequirements.fields_to_reqs`: OR the flag of every field, raising
`KeyError` for a field absent from `FIELD_FLAG_DICT`. -/
def fields_to_reqs : List String → Except PyErr Int
  | [] => .ok 0
  | f :: rest =>
    match FIELD_FLAG_DICT.lookup f with
    | none => .error (.pythonError "KeyError")
    | some v => do
      let r ← fields_to_reqs rest
      .ok (Int.lor v r)

end OpRequirements

/-- A timezone-aware Python datetime: UTC instant in microseconds since the
Unix epoch, plus the utcoffset in whole seconds. -/
structure PyDatetime where
  instantUs : Int
  offsetSec : Int
deriving DecidableEq, Repr

/-- `filetime_to_dt` from `fsapi/static.py`:
`usec = (filetime - EPOCH_AS_FILETIME) // 10` (Python floor division), then
`datetime(1970, 1, 1) + timedelta(microseconds=usec)` tagged with UTC. -/
def filetime_to_dt (filetime : Int) : PyDatetime :=
  ⟨(filetime - EPOCH_AS_FILETIME).fdiv 10, 0⟩

/-- `timegm(dat_time.timetuple())`: the wall-clock reading of the datetime,
truncated to whole seconds (`timetuple` drops microseconds) and interpreted
as UTC by `calendar.timegm`. -/
def timegmTimetuple (d : PyDatetime) : Int :=
  (d.instantUs + d.offsetSec * 1000000).fdiv 1000000

/-- `dt_to_filetime` from `fsapi/static.py`:
`EPOCH_AS_FILETIME + timegm(dat_time.timetuple()) * 10000000`. -/
def dt_to_filetime (d : PyDatetime) : Int :=
  EPOCH_AS_FILETIME + timegmTimetuple d * 10000000

/-- `d.replace(microsecond=0)`: zero the wall-clock microsecond component
(the utcoffset is a whole number of seconds, so the wall-clock microsecond
component equals `instantUs mod 10^6`). -/
def replaceMicrosecondZero (d : PyDatetime) : PyDatetime :=
  ⟨d.instantUs - d.instantUs.fmod 1000000, d.offsetSec⟩

/-- `.seconds` of the Python `timedelta` holding `us` microseconds: timedeltas
are normalised with floor division to days / seconds / microseconds. -/
def tdSeconds (us : Int) : Int :=
  (us.fmod 86400000000).fdiv 1000000

/-- `verify_returned_flag_field` from `fsapi/static.py`: build the expected
bitmask from the three toggles; return `True` on a match, log and fall off
the end (returning `None`) otherwise.  The source's successive
`expected_result |= FLAG` assignments under `if` amount to OR-ing `FLAG`
when the toggle is true and `0` otherwise. -/
def verify_returned_flag_field (flag : Int) (pre stat_post extra_post : Bool) :
    Option Bool :=
  if flag ≠ Int.lor (Int.lor (if pre then AttributeFlags.PRE_OP else 0)
      (if stat_post then AttributeFlags.STAT_POST_OP else 0))
      (if extra_post then AttributeFlags.EXTRA_POST_OP else 0) then none
  else some true

/-- Python truthiness of `verify_returned_flag_field`'s result
(`True` or `None`). -/
def optTruthy (o : Option Bool) : Bool := o.isSome

/-- Outcome of `compare_file_info`: `ok` models returning `True`;
`mismatch attr a b` models logging `attr` with its two values and
returning `None`. -/
inductive CmpResult where
  | ok
  | mismatch (attr : String) (a b : Int)
deriving DecidableEq, Repr

/-- Python truthiness of `compare_file_info`'s result. -/
def CmpResult.istrue : CmpResult → Bool
  | .ok => true
  | .mismatch _ _ _ => false

/-- The `for attr in attr_list` loop of `compare_file_info`: stop at the
first attribute whose values differ. -/
def compareFieldsLoop (f1 f2 : FileInfo) : List String → CmpResult
  | [] => .ok
  | a :: rest =>
    if f1 a == f2 a then compareFieldsLoop f1 f2 rest
    else .mismatch a (f1 a) (f2 a)

/-- The attribute list `compare_file_info` iterates over: `only_these` when
non-empty, otherwise the category list selected by the type of `f_info1`;
in either case with `exceptions` filtered out. -/
def checkedFields (isStat : Bool) (exceptions only_these : List String) :
    List String :=
  let attr_list :=
    if only_these.length > 0 then only_these
    else if isStat then STAT_INFO_ATTRS else EXTRA_INFO_ATTRS
  attr_list.filter (fun att => decide (att ∉ exceptions))

/-- `FsApiWrapper.compare_file_info` from `fsapi/api.py`.  `isStat` is the
outcome of `isinstance(f_info1, self.fsapi.StatInfo)`. -/
def compare_file_info (isStat : Bool) (f1 f2 : FileInfo)
    (exceptions only_these : List String) : CmpResult :=
  compareFieldsLoop f1 f2 (checkedFields isStat exceptions only_these)

/-- A `PrePostAttributes` payload returned inline by an operation. -/
structure PrePostAttributes where
  flags : Int
  pre_op : FileInfo
  stat_post_op : FileInfo
  extra_post_op : FileInfo

/-- The `extra_exceptions` dictionary argument of `compare_all_attributes`. -/
structure ExtraExceptions where
  stat : List String
  extra : List String

/-- Lines 170-182 of `fsapi/api.py`: split the requested flags into the stat
and extra categories, skipping the three `return_*` names and raising
`AssertionError` on an unrecognised field. -/
def classifyReqFields : List String → Except PyErr (List String × List String)
  | [] => .ok ([], [])
  | f :: rest =>
    if f ∈ ["return_pre_op_attr", "return_stat_post_op_attr",
            "return_extra_post_op_attr"] then
      classifyReqFields rest
    else if f ∈ STAT_INFO_ATTRS then do
      let (s, e) ← classifyReqFields rest
      .ok (f :: s, e)
    else if f ∈ EXTRA_INFO_ATTRS then do
      let (s, e) ← classifyReqFields rest
      .ok (s, f :: e)
    else .error (.assertionError "field not recognized")

/-- Lines 184-186 of `fsapi/api.py`: on sofs, `metadata_modified_time` is
appended to the updated stat fields unconditionally. -/
def sofsAdjust (fs_type : String) (updStat : List String) : List String :=
  if fs_type = "sofs" then updStat ++ ["metadata_modified_time"] else updStat

/-- The exception list used by the unchanged-stat-fields comparison at line
191 of `fsapi/api.py`: the updated stat fields (after the sofs adjustment)
followed by the caller-provided stat exceptions. -/
def statUnchangedExceptions (fs_type : String) (updStat : List String)
    (exc : ExtraExceptions) : List String :=
  sofsAdjust fs_type updStat ++ exc.stat

/-- Lines 135-148 of `fsapi/api.py`: if pre-op attributes were requested,
compare the returned `pre_op` payload with the `get_attr` snapshot taken
before the operation, on the three listed fields only. -/
def stepPreCmp (req : List String) (attrs : Option PrePostAttributes)
    (f_info_in : Option (FileInfo × FileInfo)) (exc : ExtraExceptions) :
    Except PyErr Unit :=
  if "return_pre_op_attr" ∈ req then
    match attrs with
    | none => .error (.pythonError "AttributeError")
    | some a =>
      match f_info_in with
      | none => .error (.pythonError "TypeError")
      | some fi =>
        pyAssert (compare_file_info true fi.1 a.pre_op exc.stat
          ["length", "metadata_modified_time", "userdata_modified_time"]).istrue ""
  else .ok ()

/-- Lines 149-157 of `fsapi/api.py`: if stat post-op attributes were requested
and an after snapshot exists, compare the returned `stat_post_op` payload
with it (modulo the stat exceptions). -/
def stepStatPostCmp (req : List String) (attrs : Option PrePostAttributes)
    (f_info_out : Option (FileInfo × FileInfo)) (exc : ExtraExceptions) :
    Except PyErr Unit :=
  if "return_stat_post_op_attr" ∈ req then
    match f_info_out with
    | none => .ok ()
    | some fo =>
      match attrs with
      | none => .error (.pythonError "AttributeError")
      | some a =>
        pyAssert (compare_file_info true fo.1 a.stat_post_op exc.stat []).istrue ""
  else .ok ()

/-- Lines 159-167 of `fsapi/api.py`: the analogous check for the returned
`extra_post_op` payload. -/
def stepExtraPostCmp (req : List String) (attrs : Option PrePostAttributes)
    (f_info_out : Option (FileInfo × FileInfo)) (exc : ExtraExceptions) :
    Except PyErr Unit :=
  if "return_extra_post_op_attr" ∈ req then
    match f_info_out with
    | none => .ok ()
    | some fo =>
      match attrs with
      | none => .error (.pythonError "AttributeError")
      | some a =>
        pyAssert (compare_file_info false fo.2 a.extra_post_op exc.extra []).istrue ""
  else .ok ()

/-- Lines 196-211 of `fsapi/api.py`: every updated stat field must differ
between the snapshots and its new value, converted by `filetime_to_dt`, must
satisfy `(current_time - dt_out).seconds == 0` — except
`metadata_modified_time` on the fsapi and sofs backends, which is skipped. -/
def updatedStatLoop (fs_type : String) (fi fo : FileInfo) (ct : PyDatetime) :
    List String → Except PyErr Unit
  | [] => .ok ()
  | a :: rest =>
    (if fs_type ∈ ["fsapi", "sofs"] ∧ a ∈ ["metadata_modified_time"] then
      .ok ()
    else do
      pyAssert (!(fi a == fo a)) "field does not change"
      pyAssert (tdSeconds (ct.instantUs - (filetime_to_dt (fo a)).instantUs) == 0) ""
    ) >>= fun _ => updatedStatLoop fs_type fi fo ct rest

/-- Lines 188-211 of `fsapi/api.py`: when an after snapshot exists, the stat
fields outside the updated/exception lists must be unchanged, and the updated
stat fields (after the sofs adjustment of line 186) are checked by
`updatedStatLoop`.  `updStatRaw` is the stat part of the classified request. -/
def stepUnchangedStat (fs_type : String) (updStatRaw : List String)
    (f_info_in f_info_out : Option (FileInfo × FileInfo)) (ct : PyDatetime)
    (exc : ExtraExceptions) : Except PyErr Unit :=
  match f_info_out with
  | none => .ok ()
  | some fo =>
    match f_info_in with
    | none => .error (.pythonError "TypeError")
    | some fi => do
      pyAssert (compare_file_info true fo.1 fi.1
        (statUnchangedExceptions fs_type updStatRaw exc) []).istrue ""
      updatedStatLoop fs_type fi.1 fo.1 ct (sofsAdjust fs_type updStatRaw)

/-- Lines 213-220 of `fsapi/api.py`: the extra fields outside the
updated/exception lists must be unchanged. -/
def stepUnchangedExtra (updExtra : List String)
    (f_info_in f_info_out : Option (FileInfo × FileInfo))
    (exc : ExtraExceptions) : Except PyErr Unit :=
  match f_info_out with
  | none => .ok ()
  | some fo =>
    match f_info_in with
    | none => .error (.pythonError "TypeError")
    | some fi =>
      pyAssert (compare_file_info false fo.2 fi.2 (updExtra ++ exc.extra) []).istrue ""

/-- `FsApiWrapper.compare_all_attributes` from `fsapi/api.py`. -/
def compare_all_attributes (fs_type : String) (req : List String)
    (attrs : Option PrePostAttributes)
    (f_info_in f_info_out : Option (FileInfo × FileInfo)) (ct : PyDatetime)
    (exc : ExtraExceptions) : Except PyErr Unit :=
  stepPreCmp req attrs f_info_in exc >>= fun _ =>
  stepStatPostCmp req attrs f_info_out exc >>= fun _ =>
  stepExtraPostCmp req attrs f_info_out exc >>= fun _ =>
  classifyReqFields req >>= fun upd =>
  stepUnchangedStat fs_type upd.1 f_info_in f_info_out ct exc >>= fun _ =>
  stepUnchangedExtra upd.2 f_info_in f_info_out exc

/-- One entry of the `special_fields` dictionary: the declared value of a
field before and after the operation. -/
structure SpecialFieldSpec where
  before : Int
  after : Int
deriving DecidableEq, Repr

/-- The `special_fields` argument of `check_op_flag_attr`; a missing
dictionary key is the empty list. -/
structure SpecialFields where
  stat_parent : List (String × SpecialFieldSpec)
  extra_parent : List (String × SpecialFieldSpec)
  stat_target : List (String × SpecialFieldSpec)
  extra_target : List (String × SpecialFieldSpec)

/-- The environment of one `check_op_flag_attr` call: its scalar arguments
plus oracles for the external filesystem API.  `getAttrBefore` and
`getAttrAfter` give the (successful) `fs_obj.get_attr` result for a path
before resp. after the operation ran; `parentAttr` / `targetAttr` are
`op_ret[1:3]`, the inline attribute payloads the operation returned; and
`currentTime` is the `datetime.now(timezone.utc)` observation.  `createInfo`
stands for `(op_args[-2], op_args[-1])`, the stat/extra infos passed to a
create-style operation. -/
structure CheckEnv where
  fs_type : String
  opName : String
  parent : Option String
  target : Option String
  createInfo : FileInfo × FileInfo
  getAttrBefore : String → FileInfo × FileInfo
  getAttrAfter : String → FileInfo × FileInfo
  parentAttr : Option PrePostAttributes
  targetAttr : Option PrePostAttributes
  currentTime : PyDatetime

/-- Python truthiness of an optional string (`None` and `""` are falsy). -/
def pyTruthyStr : Option String → Bool
  | none => false
  | some s => !(s == "")

/-- Lines 246-250 of `fsapi/api.py`: the path used for the target
`get_attr` calls.  (The value is only consulted when `target` is truthy.) -/
def targetPath (env : CheckEnv) : String :=
  if env.opName ≠ "unlink" ∨ env.parent ∈ [none, some "/", some ""] then
    env.target.getD "None"
  else (env.parent.getD "") ++ "/" ++ (env.target.getD "None")

/-- Lines 251-253: `get_attr` on the parent before the operation, when the
parent path is truthy. -/
def fileInfoParentBefore (env : CheckEnv) : Option (FileInfo × FileInfo) :=
  if pyTruthyStr env.parent then some (env.getAttrBefore (env.parent.getD ""))
  else none

/-- Lines 254-259: for create-style operations the before-infos are the
stat/extra arguments of the call; otherwise `get_attr` on the target path,
when the target is truthy. -/
def fileInfoTargetBefore (env : CheckEnv) : Option (FileInfo × FileInfo) :=
  if env.opName ∈ ["create_file", "mkdir", "symlink"] then some env.createInfo
  else if pyTruthyStr env.target then some (env.getAttrBefore (targetPath env))
  else none

/-- Lines 298-303: no after-snapshot of the target for `unlink` / `rmdir`;
otherwise `get_attr` on the target path, when the target is truthy. -/
def fileInfoTargetOut (env : CheckEnv) : Option (FileInfo × FileInfo) :=
  if env.opName ∈ ["unlink", "rmdir"] then none
  else if pyTruthyStr env.target then some (env.getAttrAfter (targetPath env))
  else none

/-- Lines 304-306: `get_attr` on the parent after the operation, when the
parent path is truthy. -/
def fileInfoParentOut (env : CheckEnv) : Option (FileInfo × FileInfo) :=
  if pyTruthyStr env.parent then some (env.getAttrAfter (env.parent.getD ""))
  else none

/-- Lines 262-281 of `fsapi/api.py` (one category): every special field other
than `bytes_used` must carry its declared before-value in the corresponding
before snapshot; subscripting a missing snapshot is a Python `TypeError`. -/
def specialBeforeCheck (info : Option FileInfo) :
    List (String × SpecialFieldSpec) → Except PyErr Unit
  | [] => .ok ()
  | (k, sp) :: rest =>
    (if k ≠ "bytes_used" then
      match info with
      | none => .error (.pythonError "TypeError")
      | some fi => pyAssert (fi k == sp.before) "special field does not match"
    else .ok ()) >>= fun _ => specialBeforeCheck info rest

/-- Lines 349-355 / 366-371 / 374-380 / 394-399 of `fsapi/api.py` (one
category): every surviving special field whose name passes `guard` must carry
its declared after-value in the corresponding after snapshot. -/
def specialAfterCheck (guard : String → Bool) (info : Option FileInfo) :
    List (String × SpecialFieldSpec) → Except PyErr Unit
  | [] => .ok ()
  | (k, sp) :: rest =>
    (if guard k then
      match info with
      | none => .error (.pythonError "TypeError")
      | some fi => pyAssert (fi k == sp.after) "does not match after operation"
    else .ok ()) >>= fun _ => specialAfterCheck guard info rest

/-- The guard of lines 350 and 375: on gfs every field is checked, elsewhere
`bytes_used` and `length` are skipped. -/
def statGuard (fs_type : String) : String → Bool :=
  fun k => fs_type == "gfs" || !(k == "bytes_used" || k == "length")

/-- Lines 338-347 of `fsapi/api.py`: requested flags are popped from the
corresponding `special_fields` entry. -/
def poppedSpecial (l : List (String × SpecialFieldSpec)) (req : List String) :
    List (String × SpecialFieldSpec) :=
  l.filter (fun kv => decide (kv.1 ∉ req))

/-- Lines 309-320 of `fsapi/api.py`: when the operation returned a truthy
parent payload, its `flags` field must verify against the requested parent
toggles. -/
def parentFlagCheck (env : CheckEnv) (req_parent : List String) :
    Except PyErr Unit :=
  match env.parentAttr with
  | none => .ok ()
  | some pa =>
    pyAssert (optTruthy (verify_returned_flag_field pa.flags
      (decide ("return_pre_op_attr" ∈ req_parent))
      (decide ("return_stat_post_op_attr" ∈ req_parent))
      (decide ("return_extra_post_op_attr" ∈ req_parent)))) "Error verifying flag"

/-- Lines 321-336 of `fsapi/api.py`: when the operation returned a truthy
target payload, its `flags` field must verify against the requested target
toggles — unless the operation is `unlink` and the target's pre-operation
link count is not greater than 1, in which case the check is skipped. -/
def targetFlagCheck (env : CheckEnv) (req_target : List String) :
    Except PyErr Unit :=
  match env.targetAttr with
  | none => .ok ()
  | some ta =>
    let doAssert :=
      pyAssert (optTruthy (verify_returned_flag_field ta.flags
        (decide ("return_pre_op_attr" ∈ req_target))
        (decide ("return_stat_post_op_attr" ∈ req_target))
        (decide ("return_extra_post_op_attr" ∈ req_target)))) "Error verifying flag"
    if env.opName ∉ ["unlink"] then doAssert
    else
      match fileInfoTargetBefore env with
      | none => .error (.pythonError "TypeError")
      | some fib => if fib.1 "nlink" > 1 then doAssert else .ok ()

/-- The body of the payload-vs-fresh-snapshot loops (lines 358-364 and
401-407 of `fsapi/api.py`): each listed field of the inline payload must
equal the field of the freshly fetched after snapshot. -/
def payloadFieldsCheck (payload dst : Option FileInfo) :
    List String → Except PyErr Unit
  | [] => .ok ()
  | f :: rest =>
    (match payload with
    | none => .error (.pythonError "AttributeError")
    | some p =>
      match dst with
      | none => .error (.pythonError "TypeError")
      | some d => pyAssert (p f == d f) "does not match after operation"
    ) >>= fun _ => payloadFieldsCheck payload dst rest

/-- Lines 383-393 of `fsapi/api.py`: as `payloadFieldsCheck`, but for
stream operations the `length` and `bytes_used` fields are skipped. -/
def payloadFieldsCheckStream (isStream : Bool) (payload dst : Option FileInfo) :
    List String → Except PyErr Unit
  | [] => .ok ()
  | f :: rest =>
    (if f ∉ ["length", "bytes_used"] ∨ isStream = false then
      match payload with
      | none => .error (.pythonError "AttributeError")
      | some p =>
        match dst with
        | none => .error (.pythonError "TypeError")
        | some d => pyAssert (p f == d f) "does not match after operation"
    else .ok ()) >>= fun _ => payloadFieldsCheckStream isStream payload dst rest

/-- Python's `"stream" in operation.__name__` substring test. -/
def strContains (hay needle : String) : Bool :=
  decide ((hay.splitOn needle).length > 1)

/-- Lines 357-364 of `fsapi/api.py`: if stat post-op attributes were
requested for the parent, every `STAT_INFO_ATTRS` field of the returned
payload must equal the freshly fetched parent after snapshot. -/
def parentStatPostCheck (env : CheckEnv) (req_parent : List String) :
    Except PyErr Unit :=
  if "return_stat_post_op_attr" ∈ req_parent then
    payloadFieldsCheck (env.parentAttr.map (fun a => a.stat_post_op))
      ((fileInfoParentOut env).map Prod.fst) STAT_INFO_ATTRS
  else .ok ()

/-- Lines 373-407 of `fsapi/api.py`: the target-side after checks, skipped
entirely for `unlink` and `rmdir`. -/
def targetAfterBlock (env : CheckEnv) (req_target : List String)
    (statT extraT : List (String × SpecialFieldSpec)) : Except PyErr Unit :=
  if env.opName ∈ ["unlink", "rmdir"] then .ok ()
  else
    specialAfterCheck (statGuard env.fs_type)
      ((fileInfoTargetOut env).map Prod.fst) statT >>= fun _ =>
    (if "return_stat_post_op_attr" ∈ req_target then
      payloadFieldsCheckStream (strContains env.opName "stream")
        (env.targetAttr.map (fun a => a.stat_post_op))
        ((fileInfoTargetOut env).map Prod.fst) STAT_INFO_ATTRS
    else .ok ()) >>= fun _ =>
    specialAfterCheck (fun _ => true)
      ((fileInfoTargetOut env).map Prod.snd) extraT >>= fun _ =>
    (if "return_extra_post_op_attr" ∈ req_target then
      payloadFieldsCheck (env.targetAttr.map (fun a => a.extra_post_op))
        ((fileInfoTargetOut env).map Prod.snd) EXTRA_INFO_ATTRS
    else .ok ())

/-- The `if name not in l: l.append(name)` idiom of lines 415-418 and
436-439 of `fsapi/api.py`. -/
def addMissing (name : String) (l : List String) : List String :=
  if name ∉ l then l ++ [name] else l

/-- Lines 410-420 of `fsapi/api.py`: the `extra_exceptions` passed to the
parent `compare_all_attributes` call: the surviving parent special-field
names; on fsapi/sofs additionally `metadata_modified_time` and
`userdata_modified_time` (if not already present) and, for `symlink`,
`unix_mode`. -/
def parentExtraExceptions (fs_type opName : String)
    (statP extraP : List (String × SpecialFieldSpec)) : ExtraExceptions :=
  if fs_type ∈ ["fsapi", "sofs"] then
    ⟨(if opName = "symlink" then
        addMissing "userdata_modified_time"
          (addMissing "metadata_modified_time" (statP.map Prod.fst))
          ++ ["unix_mode"]
      else
        addMissing "userdata_modified_time"
          (addMissing "metadata_modified_time" (statP.map Prod.fst))),
     extraP.map Prod.fst⟩
  else ⟨statP.map Prod.fst, extraP.map Prod.fst⟩

/-- Lines 431-442 of `fsapi/api.py`: the `extra_exceptions` passed to the
target `compare_all_attributes` call: the surviving target special-field
names; on fsapi/sofs additionally `metadata_modified_time` and
`userdata_modified_time` (if not already present) and, for the create-style
operations, `created_time` and `accessed_time`. -/
def targetExtraExceptions (fs_type opName : String)
    (statT extraT : List (String × SpecialFieldSpec)) : ExtraExceptions :=
  if fs_type ∈ ["fsapi", "sofs"] then
    ⟨(if opName ∈ ["create_file", "mkdir", "symlink"] then
        addMissing "userdata_modified_time"
          (addMissing "metadata_modified_time" (statT.map Prod.fst))
          ++ ["created_time", "accessed_time"]
      else
        addMissing "userdata_modified_time"
          (addMissing "metadata_modified_time" (statT.map Prod.fst))),
     extraT.map Prod.fst⟩
  else ⟨statT.map Prod.fst, extraT.map Prod.fst⟩

/-- `FsApiWrapper.check_op_flag_attr` from `fsapi/api.py`, as the sequence of
its checking steps.  The operation call itself and the surrounding
`get_attr` fetches are supplied by the oracles in `env`. -/
def check_op_flag_attr (env : CheckEnv) (req_parent req_target : List String)
    (special : SpecialFields) : Except PyErr Unit :=
  specialBeforeCheck ((fileInfoParentBefore env).map Prod.fst)
    special.stat_parent >>= fun _ =>
  specialBeforeCheck ((fileInfoParentBefore env).map Prod.snd)
    special.extra_parent >>= fun _ =>
  specialBeforeCheck ((fileInfoTargetBefore env).map Prod.fst)
    special.stat_target >>= fun _ =>
  specialBeforeCheck ((fileInfoTargetBefore env).map Prod.snd)
    special.extra_target >>= fun _ =>
  OpRequirements.fields_to_reqs req_target >>= fun _ =>
  OpRequirements.fields_to_reqs req_parent >>= fun _ =>
  parentFlagCheck env req_parent >>= fun _ =>
  targetFlagCheck env req_target >>= fun _ =>
  specialAfterCheck (statGuard env.fs_type)
    ((fileInfoParentOut env).map Prod.fst)
    (poppedSpecial special.stat_parent req_parent) >>= fun _ =>
  parentStatPostCheck env req_parent >>= fun _ =>
  specialAfterCheck (fun _ => true) ((fileInfoParentOut env).map Prod.snd)
    (poppedSpecial special.extra_parent req_parent) >>= fun _ =>
  targetAfterBlock env req_target
    (poppedSpecial special.stat_target req_target)
    (poppedSpecial special.extra_target req_target) >>= fun _ =>
  compare_all_attributes env.fs_type req_parent env.parentAttr
    (fileInfoParentBefore env) (fileInfoParentOut env) env.currentTime
    (parentExtraExceptions env.fs_type env.opName
      (poppedSpecial special.stat_parent req_parent)
      (poppedSpecial special.extra_parent req_parent)) >>= fun _ =>
  compare_all_attributes env.fs_type req_target env.targetAttr
    (fileInfoTargetBefore env) (fileInfoTargetOut env) env.currentTime
    (targetExtraExceptions env.fs_type env.opName
      (poppedSpecial special.stat_target req_target)
      (poppedSpecial special.extra_target req_target))

/-- `FileSystem.lookup` from `fsapi/filesystem.py`: the underlying
`api.Lookup` call returned `(ret_code, root_inode, parent_attr, target_attr)`;
with `verify` the nonzero status is asserted against, otherwise it is passed
back, first in the reordered result tuple. -/
def FileSystem.lookup {Inode Attr : Type} (apiRet : Int × Inode × Attr × Attr)
    (verify : Bool) : Except PyErr (Int × Attr × Attr × Inode) := do
  let (ret_code, root_inode, parent_attr, target_attr) := apiRet
  if verify then
    pyAssert (ret_code == 0) "Unable to get inode"
  .ok (ret_code, parent_attr, target_attr, root_inode)

/-! ### Concrete instances used by witnesses and counterexamples -/

/-- A file info whose every attribute is 0. -/
def zeroFI : FileInfo := fun _ => 0

/-- The all-zero snapshot pair. -/
def zeroPair : FileInfo × FileInfo := (zeroFI, zeroFI)

/-- Empty `special_fields` dictionary. -/
def noSpecial : SpecialFields := ⟨[], [], [], []⟩

/-- Observation time for the C2 examples: 10^15 µs after the epoch, UTC. -/
def c2ct : PyDatetime := ⟨1000000000000000, 0⟩

/-- A filetime whose `filetime_to_dt` image is exactly 1 µs after `c2ct`. -/
def c2ft : Int := EPOCH_AS_FILETIME + 1000000000000001 * 10

/-- After-snapshot whose `created_time` converts to 1 µs after `c2ct`. -/
def c2fout : FileInfo × FileInfo :=
  (fun a => if a = "created_time" then c2ft else 0, zeroFI)

/-- A filetime whose `filetime_to_dt` image is exactly `c2ct`. -/
def c2wft : Int := EPOCH_AS_FILETIME + 1000000000000000 * 10

/-- After-snapshot whose `created_time` converts to exactly `c2ct`. -/
def c2wfout : FileInfo × FileInfo :=
  (fun a => if a = "created_time" then c2wft else 0, zeroFI)

/-- Parent extra payload of the C4 counterexample: `dos_flags` disagrees
with the freshly fetched after snapshot. -/
def c4pa : PrePostAttributes :=
  ⟨AttributeFlags.EXTRA_POST_OP, zeroFI, zeroFI,
   fun a => if a = "dos_flags" then 999 else 0⟩

/-- C4 counterexample run: gfs `set_attr` on a parent whose `dos_flags`
changed from 0 to 5; `dos_flags` is declared in `special_fields` and the
inline extra payload reports 999 for it. -/
def c4env : CheckEnv :=
  ⟨"gfs", "set_attr", some "/p", none, zeroPair,
   fun _ => zeroPair,
   fun _ => (zeroFI, fun a => if a = "dos_flags" then 5 else 0),
   some c4pa, none, ⟨0, 0⟩⟩

/-- `special_fields` of the C4 counterexample. -/
def c4special : SpecialFields := ⟨[], [("dos_flags", ⟨0, 5⟩)], [], []⟩

/-- Parent payload of the C4 witness run: stat post payload agrees with the
after snapshot everywhere. -/
def c4wpa : PrePostAttributes :=
  ⟨AttributeFlags.STAT_POST_OP, zeroFI, zeroFI, zeroFI⟩

/-- C4 witness run: a clean gfs `set_attr` with stat post attributes
requested for the parent. -/
def c4wenv : CheckEnv :=
  ⟨"gfs", "set_attr", some "/p", none, zeroPair,
   fun _ => zeroPair, fun _ => zeroPair, some c4wpa, none, ⟨0, 0⟩⟩

/-- Second argument of the C5 witness: `bytes_used` is 1, all else 0. -/
def c5f2 : FileInfo := fun a => if a = "bytes_used" then 1 else 0

/-- After-snapshot of the C6 example: only `metadata_modified_time`
changed. -/
def c6fout : FileInfo × FileInfo :=
  (fun a => if a = "metadata_modified_time" then 123 else 0, zeroFI)

/-- C7 counterexample run: gfs `create_file` whose target `created_time`
changed (from the caller-supplied before infos) with nothing requested. -/
def c7env : CheckEnv :=
  ⟨"gfs", "create_file", none, some "/t", zeroPair,
   fun _ => zeroPair,
   fun _ => (fun a => if a = "created_time" then 77 else 0, zeroFI),
   none, none, ⟨0, 0⟩⟩

/-- The same run as `c7env` on the fsapi backend. -/
def c7envF : CheckEnv :=
  ⟨"fsapi", "create_file", none, some "/t", zeroPair,
   fun _ => zeroPair,
   fun _ => (fun a => if a = "created_time" then 77 else 0, zeroFI),
   none, none, ⟨0, 0⟩⟩

/-- C8 example run: `unlink` of a singly-linked target where the operation
returned a target payload with garbage flags. -/
def c8env : CheckEnv :=
  ⟨"gfs", "unlink", none, some "/t", zeroPair,
   fun _ => (fun a => if a = "nlink" then 1 else 0, zeroFI),
   fun _ => (fun a => if a = "nlink" then 1 else 0, zeroFI),
   none, some ⟨999, zeroFI, zeroFI, zeroFI⟩, ⟨0, 0⟩⟩

/-- C8 witness run: `mkdir` with a target payload carrying the correct
(empty) flag mask. -/
def c8wenv : CheckEnv :=
  ⟨"gfs", "mkdir", none, some "/t", zeroPair,
   fun _ => zeroPair, fun _ => zeroPair,
   none, some ⟨0, zeroFI, zeroFI, zeroFI⟩, ⟨0, 0⟩⟩

instance : DecidableEq (Except PyErr Unit) := fun x y =>
  match x, y with
  | .ok (), .ok () => isTrue rfl
  | .ok (), .error _ => isFalse (fun h => Except.noConfusion h)
  | .error _, .ok () => isFalse (fun h => Except.noConfusion h)
  | .error e, .error f =>
    if h : e = f then isTrue (by rw [h])
    else isFalse (fun hh => h (Except.error.inj hh))

/-! ### Basic inversion lemmas for the `Except` plumbing -/

theorem seq_ok_iff (x : Except PyErr Unit) (y : Except PyErr Unit) :
    (x >>= fun _ => y) = .ok () ↔ x = .ok () ∧ y = .ok () := by
  cases x <;> simp [Bind.bind, Except.bind]

theorem bind_ok_iff {α β : Type} (x : Except PyErr α) (f : α → Except PyErr β)
    (b : β) : (x >>= f) = .ok b ↔ ∃ a, x = .ok a ∧ f a = .ok b := by
  cases x <;> simp [Bind.bind, Except.bind]

theorem pyAssert_ok_iff (b : Bool) (m : String) :
    pyAssert b m = .ok () ↔ b = true := by
  cases b <;> simp [pyAssert]

theorem istrue_iff (r : CmpResult) : r.istrue = true ↔ r = .ok := by
  cases r <;> simp [CmpResult.istrue]

/-! ### `compare_file_info` characterisation -/

theorem compareFieldsLoop_ok_iff (f1 f2 : FileInfo) (l : List String) :
    compareFieldsLoop f1 f2 l = .ok ↔ ∀ a ∈ l, f1 a = f2 a := by
  induction l with
  | nil => simp [compareFieldsLoop]
  | cons c rest ih =>
    by_cases h : f1 c = f2 c
    · simp [compareFieldsLoop, h, ih]
    · simp [compareFieldsLoop, h]

theorem compareFieldsLoop_mismatch (f1 f2 : FileInfo) (l : List String)
    (a : String) (v1 v2 : Int)
    (h : compareFieldsLoop f1 f2 l = .mismatch a v1 v2) :
    v1 = f1 a ∧ v2 = f2 a ∧ f1 a ≠ f2 a ∧
      ∃ l1 l2, l = l1 ++ a :: l2 ∧ ∀ b ∈ l1, f1 b = f2 b := by
  induction l with
  | nil => simp [compareFieldsLoop] at h
  | cons c rest ih =>
    by_cases hc : f1 c = f2 c
    · simp only [compareFieldsLoop, hc, beq_self_eq_true, if_pos] at h
      obtain ⟨h1, h2, h3, l1, l2, hl, hall⟩ := ih h
      refine ⟨h1, h2, h3, c :: l1, l2, by rw [hl]; rfl, ?_⟩
      intro b hb
      rcases List.mem_cons.1 hb with rfl | hb
      · exact hc
      · exact hall b hb
    · simp only [compareFieldsLoop, beq_iff_eq, if_neg hc,
        CmpResult.mismatch.injEq] at h
      obtain ⟨rfl, rfl, rfl⟩ := h
      exact ⟨rfl, rfl, hc, [], rest, rfl, by simp⟩

theorem compare_file_info_ok_iff (isStat : Bool) (f1 f2 : FileInfo)
    (exceptions only_these : List String) :
    compare_file_info isStat f1 f2 exceptions only_these = .ok ↔
      ∀ a ∈ checkedFields isStat exceptions only_these, f1 a = f2 a := by
  unfold compare_file_info
  exact compareFieldsLoop_ok_iff f1 f2 _

theorem mem_checkedFields_iff (isStat : Bool) (exceptions only_these : List String)
    (a : String) :
    a ∈ checkedFields isStat exceptions only_these ↔
      a ∈ (if only_these.length > 0 then only_these
           else if isStat then STAT_INFO_ATTRS else EXTRA_INFO_ATTRS) ∧
      a ∉ exceptions := by
  unfold checkedFields
  simp [List.mem_filter]

/-! ### `classifyReqFields` facts -/

theorem classifyReqFields_sound (req : List String) (s e : List String)
    (h : classifyReqFields req = .ok (s, e)) :
    (∀ a ∈ s, a ∈ req) ∧ (∀ a ∈ e, a ∈ req) := by
  induction req generalizing s e with
  | nil =>
    simp [classifyReqFields] at h
    obtain ⟨rfl, rfl⟩ := h
    simp
  | cons f rest ih =>
    unfold classifyReqFields at h
    split at h
    · obtain ⟨h1, h2⟩ := ih _ _ h
      exact ⟨fun a ha => List.mem_cons_of_mem _ (h1 a ha),
             fun a ha => List.mem_cons_of_mem _ (h2 a ha)⟩
    · split at h
      · rw [bind_ok_iff] at h
        obtain ⟨⟨s', e'⟩, hc, hp⟩ := h
        simp only [pure, Except.pure, Except.ok.injEq, Prod.mk.injEq] at hp
        obtain ⟨hs, he⟩ := hp
        obtain ⟨h1, h2⟩ := ih _ _ hc
        subst hs he
        constructor
        · intro a ha
          rcases List.mem_cons.1 ha with rfl | ha
          · exact List.mem_cons_self _ _
          · exact List.mem_cons_of_mem _ (h1 a ha)
        · exact fun a ha => List.mem_cons_of_mem _ (h2 a ha)
      · split at h
        · rw [bind_ok_iff] at h
          obtain ⟨⟨s', e'⟩, hc, hp⟩ := h
          simp only [pure, Except.pure, Except.ok.injEq, Prod.mk.injEq] at hp
          obtain ⟨hs, he⟩ := hp
          obtain ⟨h1, h2⟩ := ih _ _ hc
          subst hs he
          constructor
          · exact fun a ha => List.mem_cons_of_mem _ (h1 a ha)
          · intro a ha
            rcases List.mem_cons.1 ha with rfl | ha
            · exact List.mem_cons_self _ _
            · exact List.mem_cons_of_mem _ (h2 a ha)
        · exact absurd h (by simp)

theorem classifyReqFields_complete (req : List String) (a : String)
    (hstat : a ∈ STAT_INFO_ATTRS) :
    ∀ s e : List String, classifyReqFields req = .ok (s, e) → a ∈ req → a ∈ s := by
  induction req with
  | nil =>
    intro s e h ha
    simp at ha
  | cons f rest ih =>
    intro s e h ha
    unfold classifyReqFields at h
    split at h
    · rename_i hret
      rcases List.mem_cons.1 ha with rfl | ha
      · exfalso
        -- the three return names are not stat attributes
        simp only [List.mem_cons, List.mem_singleton, List.not_mem_nil,
          or_false] at hret
        rcases hret with rfl | rfl | rfl
        · revert hstat; decide
        · revert hstat; decide
        · revert hstat; decide
      · exact ih _ _ h ha
    · split at h
      · rw [bind_ok_iff] at h
        obtain ⟨⟨s', e'⟩, hc, hp⟩ := h
        simp only [pure, Except.pure, Except.ok.injEq, Prod.mk.injEq] at hp
        obtain ⟨hs, he⟩ := hp
        subst hs he
        rcases List.mem_cons.1 ha with rfl | ha
        · exact List.mem_cons_self _ _
        · exact List.mem_cons_of_mem _ (ih _ _ hc ha)
      · split at h
        · rw [bind_ok_iff] at h
          obtain ⟨⟨s', e'⟩, hc, hp⟩ := h
          simp only [pure, Except.pure, Except.ok.injEq, Prod.mk.injEq] at hp
          obtain ⟨hs, he⟩ := hp
          subst hs he
          rcases List.mem_cons.1 ha with rfl | ha
          · rename_i hnstat _
            exact absurd hstat hnstat
          · exact ih _ _ hc ha
        · exact absurd h (by simp)

theorem mem_sofsAdjust (fs_type : String) (l : List String) (a : String)
    (h : a ∈ sofsAdjust fs_type l) :
    a ∈ l ∨ (fs_type = "sofs" ∧ a = "metadata_modified_time") := by
  by_cases hfs : fs_type = "sofs"
  · subst hfs
    unfold sofsAdjust at h
    rw [if_pos rfl] at h
    rcases List.mem_append.1 h with h | h
    · exact Or.inl h
    · simp at h
      exact Or.inr ⟨rfl, h⟩
  · unfold sofsAdjust at h
    rw [if_neg hfs] at h
    exact Or.inl h

/-! ### Loop and step inversions -/

theorem updatedStatLoop_ok (fs_type : String) (fi fo : FileInfo)
    (ct : PyDatetime) (l : List String)
    (h : updatedStatLoop fs_type fi fo ct l = .ok ()) :
    ∀ a ∈ l, ¬(fs_type ∈ ["fsapi", "sofs"] ∧ a ∈ ["metadata_modified_time"]) →
      fi a ≠ fo a ∧
      tdSeconds (ct.instantUs - (filetime_to_dt (fo a)).instantUs) = 0 := by
  induction l with
  | nil => simp
  | cons c rest ih =>
    unfold updatedStatLoop at h
    rw [seq_ok_iff] at h
    obtain ⟨hhead, htail⟩ := h
    intro a ha hcond
    rcases List.mem_cons.1 ha with rfl | ha
    · rw [if_neg hcond, seq_ok_iff] at hhead
      obtain ⟨h1, h2⟩ := hhead
      rw [pyAssert_ok_iff] at h1 h2
      constructor
      · simpa using h1
      · simpa using h2
    · exact ih htail a ha hcond

theorem payloadFieldsCheck_ok (p d : FileInfo) (l : List String)
    (h : payloadFieldsCheck (some p) (some d) l = .ok ()) :
    ∀ f ∈ l, p f = d f := by
  induction l with
  | nil => simp
  | cons c rest ih =>
    unfold payloadFieldsCheck at h
    rw [seq_ok_iff] at h
    obtain ⟨hhead, htail⟩ := h
    rw [pyAssert_ok_iff] at hhead
    intro f hf
    rcases List.mem_cons.1 hf with rfl | hf
    · simpa using hhead
    · exact ih htail f hf

theorem payloadFieldsCheckStream_ok (isStream : Bool) (p d : FileInfo)
    (l : List String)
    (h : payloadFieldsCheckStream isStream (some p) (some d) l = .ok ()) :
    ∀ f ∈ l, (f ∉ ["length", "bytes_used"] ∨ isStream = false) → p f = d f := by
  induction l with
  | nil => simp
  | cons c rest ih =>
    unfold payloadFieldsCheckStream at h
    rw [seq_ok_iff] at h
    obtain ⟨hhead, htail⟩ := h
    intro f hf hcond
    rcases List.mem_cons.1 hf with rfl | hf
    · rw [if_pos hcond, pyAssert_ok_iff] at hhead
      simpa using hhead
    · exact ih htail f hf hcond

theorem stepStatPostCmp_ok (req : List String) (a : PrePostAttributes)
    (fo : FileInfo × FileInfo) (exc : ExtraExceptions)
    (hmem : "return_stat_post_op_attr" ∈ req)
    (h : stepStatPostCmp req (some a) (some fo) exc = .ok ()) :
    ∀ f ∈ STAT_INFO_ATTRS, f ∉ exc.stat → fo.1 f = a.stat_post_op f := by
  unfold stepStatPostCmp at h
  rw [if_pos hmem, pyAssert_ok_iff, istrue_iff, compare_file_info_ok_iff] at h
  intro f hf hexc
  exact h f ((mem_checkedFields_iff _ _ _ _).2 (by simpa using ⟨hf, hexc⟩))

theorem stepExtraPostCmp_ok (req : List String) (a : PrePostAttributes)
    (fo : FileInfo × FileInfo) (exc : ExtraExceptions)
    (hmem : "return_extra_post_op_attr" ∈ req)
    (h : stepExtraPostCmp req (some a) (some fo) exc = .ok ()) :
    ∀ f ∈ EXTRA_INFO_ATTRS, f ∉ exc.extra → fo.2 f = a.extra_post_op f := by
  unfold stepExtraPostCmp at h
  rw [if_pos hmem, pyAssert_ok_iff, istrue_iff, compare_file_info_ok_iff] at h
  intro f hf hexc
  exact h f ((mem_checkedFields_iff _ _ _ _).2 (by simpa using ⟨hf, hexc⟩))

theorem stepUnchangedStat_ok (fs_type : String) (updStatRaw : List String)
    (fi fo : FileInfo × FileInfo) (ct : PyDatetime) (exc : ExtraExceptions)
    (h : stepUnchangedStat fs_type updStatRaw (some fi) (some fo) ct exc
      = .ok ()) :
    (∀ f ∈ STAT_INFO_ATTRS,
      f ∉ statUnchangedExceptions fs_type updStatRaw exc → fo.1 f = fi.1 f) ∧
    updatedStatLoop fs_type fi.1 fo.1 ct (sofsAdjust fs_type updStatRaw)
      = .ok () := by
  unfold stepUnchangedStat at h
  rw [seq_ok_iff] at h
  obtain ⟨hcmp, hloop⟩ := h
  rw [pyAssert_ok_iff, istrue_iff, compare_file_info_ok_iff] at hcmp
  refine ⟨?_, hloop⟩
  intro f hf hexc
  exact hcmp f ((mem_checkedFields_iff _ _ _ _).2 (by simpa using ⟨hf, hexc⟩))

theorem stepUnchangedExtra_ok (updExtra : List String)
    (fi fo : FileInfo × FileInfo) (exc : ExtraExceptions)
    (h : stepUnchangedExtra updExtra (some fi) (some fo) exc = .ok ()) :
    ∀ f ∈ EXTRA_INFO_ATTRS, f ∉ updExtra ++ exc.extra → fo.2 f = fi.2 f := by
  unfold stepUnchangedExtra at h
  rw [pyAssert_ok_iff, istrue_iff, compare_file_info_ok_iff] at h
  intro f hf hexc
  refine h f ((mem_checkedFields_iff _ _ _ _).2 ⟨?_, hexc⟩)
  simpa using hf

theorem compare_all_ok_inv (fs_type : String) (req : List String)
    (attrs : Option PrePostAttributes)
    (f_info_in f_info_out : Option (FileInfo × FileInfo)) (ct : PyDatetime)
    (exc : ExtraExceptions)
    (h : compare_all_attributes fs_type req attrs f_info_in f_info_out ct exc
      = .ok ()) :
    ∃ s e, classifyReqFields req = .ok (s, e) ∧
      stepPreCmp req attrs f_info_in exc = .ok () ∧
      stepStatPostCmp req attrs f_info_out exc = .ok () ∧
      stepExtraPostCmp req attrs f_info_out exc = .ok () ∧
      stepUnchangedStat fs_type s f_info_in f_info_out ct exc = .ok () ∧
      stepUnchangedExtra e f_info_in f_info_out exc = .ok () := by
  unfold compare_all_attributes at h
  rw [seq_ok_iff] at h
  obtain ⟨h1, h⟩ := h
  rw [seq_ok_iff] at h
  obtain ⟨h2, h⟩ := h
  rw [seq_ok_iff] at h
  obtain ⟨h3, h⟩ := h
  rw [bind_ok_iff] at h
  obtain ⟨⟨s, e⟩, hc, h⟩ := h
  rw [seq_ok_iff] at h
  obtain ⟨h4, h5⟩ := h
  exact ⟨s, e, hc, h1, h2, h3, h4, h5⟩

/-! ### `check_op_flag_attr` inversions -/

theorem check_op_ok_inv (env : CheckEnv) (req_parent req_target : List String)
    (special : SpecialFields)
    (h : check_op_flag_attr env req_parent req_target special = .ok ()) :
    parentFlagCheck env req_parent = .ok () ∧
    targetFlagCheck env req_target = .ok () ∧
    parentStatPostCheck env req_parent = .ok () ∧
    targetAfterBlock env req_target
      (poppedSpecial special.stat_target req_target)
      (poppedSpecial special.extra_target req_target) = .ok () ∧
    compare_all_attributes env.fs_type req_parent env.parentAttr
      (fileInfoParentBefore env) (fileInfoParentOut env) env.currentTime
      (parentExtraExceptions env.fs_type env.opName
        (poppedSpecial special.stat_parent req_parent)
        (poppedSpecial special.extra_parent req_parent)) = .ok () ∧
    compare_all_attributes env.fs_type req_target env.targetAttr
      (fileInfoTargetBefore env) (fileInfoTargetOut env) env.currentTime
      (targetExtraExceptions env.fs_type env.opName
        (poppedSpecial special.stat_target req_target)
        (poppedSpecial special.extra_target req_target)) = .ok () := by
  unfold check_op_flag_attr at h
  rw [seq_ok_iff] at h
  obtain ⟨_, h⟩ := h
  rw [seq_ok_iff] at h
  obtain ⟨_, h⟩ := h
  rw [seq_ok_iff] at h
  obtain ⟨_, h⟩ := h
  rw [seq_ok_iff] at h
  obtain ⟨_, h⟩ := h
  rw [bind_ok_iff] at h
  obtain ⟨_, _, h⟩ := h
  rw [bind_ok_iff] at h
  obtain ⟨_, _, h⟩ := h
  rw [seq_ok_iff] at h
  obtain ⟨hpf, h⟩ := h
  rw [seq_ok_iff] at h
  obtain ⟨htf, h⟩ := h
  rw [seq_ok_iff] at h
  obtain ⟨_, h⟩ := h
  rw [seq_ok_iff] at h
  obtain ⟨hpsp, h⟩ := h
  rw [seq_ok_iff] at h
  obtain ⟨_, h⟩ := h
  rw [seq_ok_iff] at h
  obtain ⟨htab, h⟩ := h
  rw [seq_ok_iff] at h
  obtain ⟨hcap, hcat⟩ := h
  exact ⟨hpf, htf, hpsp, htab, hcap, hcat⟩

theorem targetAfterBlock_ok_inv (env : CheckEnv) (req_target : List String)
    (statT extraT : List (String × SpecialFieldSpec))
    (hop : env.opName ∉ ["unlink", "rmdir"])
    (h : targetAfterBlock env req_target statT extraT = .ok ()) :
    ("return_stat_post_op_attr" ∈ req_target →
      payloadFieldsCheckStream (strContains env.opName "stream")
        (env.targetAttr.map (fun a => a.stat_post_op))
        ((fileInfoTargetOut env).map Prod.fst) STAT_INFO_ATTRS = .ok ()) ∧
    ("return_extra_post_op_attr" ∈ req_target →
      payloadFieldsCheck (env.targetAttr.map (fun a => a.extra_post_op))
        ((fileInfoTargetOut env).map Prod.snd) EXTRA_INFO_ATTRS = .ok ()) := by
  unfold targetAfterBlock at h
  rw [if_neg hop] at h
  rw [seq_ok_iff] at h
  obtain ⟨_, h⟩ := h
  rw [seq_ok_iff] at h
  obtain ⟨hst, h⟩ := h
  rw [seq_ok_iff] at h
  obtain ⟨_, hex⟩ := h
  constructor
  · intro hmem
    rwa [if_pos hmem] at hst
  · intro hmem
    rwa [if_pos hmem] at hex

theorem fileInfoTargetOut_some_op (env : CheckEnv)
    (fo : FileInfo × FileInfo) (h : fileInfoTargetOut env = some fo) :
    env.opName ∉ ["unlink", "rmdir"] := by
  unfold fileInfoTargetOut at h
  intro hmem
  rw [if_pos hmem] at h
  exact Option.noConfusion h

/-- The extra-category exception list handed to the parent (resp. target)
`compare_all_attributes` call is exactly the surviving special-field names. -/
theorem parentExtraExceptions_extra (fs_type opName : String)
    (statP extraP : List (String × SpecialFieldSpec)) :
    (parentExtraExceptions fs_type opName statP extraP).extra
      = extraP.map Prod.fst := by
  unfold parentExtraExceptions
  split <;> rfl

theorem targetExtraExceptions_extra (fs_type opName : String)
    (statT extraT : List (String × SpecialFieldSpec)) :
    (targetExtraExceptions fs_type opName statT extraT).extra
      = extraT.map Prod.fst := by
  unfold targetExtraExceptions
  split <;> rfl

theorem mem_addMissing (name : String) (l : List String) (f : String) :
    f ∈ addMissing name l ↔ f ∈ l ∨ f = name := by
  unfold addMissing
  by_cases h : name ∈ l
  · simp only [h, not_true_eq_false, if_neg, if_false]
    constructor
    · exact Or.inl
    · rintro (hf | rfl)
      · exact hf
      · exact h
  · rw [if_pos h]
    simp

/-- Membership in the target stat exception list forces either a surviving
special-field name or one of the four fields the fsapi/sofs branch adds. -/
theorem mem_targetExtraExceptions_stat (fs_type opName : String)
    (statT extraT : List (String × SpecialFieldSpec)) (f : String)
    (h : f ∈ (targetExtraExceptions fs_type opName statT extraT).stat) :
    f ∈ statT.map Prod.fst ∨ f = "metadata_modified_time" ∨
      f = "userdata_modified_time" ∨ f = "created_time" ∨
      f = "accessed_time" := by
  unfold targetExtraExceptions at h
  split at h
  · simp only at h
    split at h <;>
      simp only [List.mem_append, mem_addMissing, List.mem_cons,
        List.mem_singleton, List.not_mem_nil, or_false] at h <;> tauto
  · simp only at h
    exact Or.inl h

theorem optTruthy_verify_eq (flag : Int) (pre stat_post extra_post : Bool)
    (h : optTruthy (verify_returned_flag_field flag pre stat_post extra_post)
      = true) :
    verify_returned_flag_field flag pre stat_post extra_post = some true := by
  by_cases hcond : flag = Int.lor (Int.lor
      (if pre then AttributeFlags.PRE_OP else 0)
      (if stat_post then AttributeFlags.STAT_POST_OP else 0))
      (if extra_post then AttributeFlags.EXTRA_POST_OP else 0)
  · unfold verify_returned_flag_field
    rw [if_neg (fun hn => hn hcond)]
  · unfold verify_returned_flag_field at h
    rw [if_pos hcond] at h
    simp [optTruthy] at h

/-! ### Claim theorems -/

/-- C3: `verify_returned_flag_field(flag, pre, stat_post, extra_post)`
returns `True` if and only if `flag` equals the bitwise OR of
`AttributeFlags.PRE_OP`, `AttributeFlags.STAT_POST_OP` and
`AttributeFlags.EXTRA_POST_OP` taken over exactly the toggles that are true;
for every other flag value it returns `None` (falsy); and
`check_op_flag_attr` asserts on this result (here: the parent flag-check
step succeeding forces the returned flag field to verify), so a mismatch is
a hard failure. -/
theorem verify_returned_flag_field_spec (flag : Int)
    (pre stat_post extra_post : Bool) (env : CheckEnv)
    (req_parent : List String) (pa : PrePostAttributes) :
    (verify_returned_flag_field flag pre stat_post extra_post = some true ↔
      flag = Int.lor (Int.lor (if pre then AttributeFlags.PRE_OP else 0)
        (if stat_post then AttributeFlags.STAT_POST_OP else 0))
        (if extra_post then AttributeFlags.EXTRA_POST_OP else 0)) ∧
    (flag ≠ Int.lor (Int.lor (if pre then AttributeFlags.PRE_OP else 0)
        (if stat_post then AttributeFlags.STAT_POST_OP else 0))
        (if extra_post then AttributeFlags.EXTRA_POST_OP else 0) →
      verify_returned_flag_field flag pre stat_post extra_post = none) ∧
    (env.parentAttr = some pa → parentFlagCheck env req_parent = .ok () →
      verify_returned_flag_field pa.flags
        (decide ("return_pre_op_attr" ∈ req_parent))
        (decide ("return_stat_post_op_attr" ∈ req_parent))
        (decide ("return_extra_post_op_attr" ∈ req_parent)) = some true) := by
  refine ⟨?_, ?_, ?_⟩
  · constructor
    · intro hv
      by_contra hne
      unfold verify_returned_flag_field at hv
      rw [if_pos hne] at hv
      exact Option.noConfusion hv
    · intro he
      unfold verify_returned_flag_field
      rw [if_neg (fun hn => hn he)]
  · intro hne
    unfold verify_returned_flag_field
    rw [if_pos hne]
  · intro hpa hfc
    unfold parentFlagCheck at hfc
    rw [hpa] at hfc
    rw [pyAssert_ok_iff] at hfc
    exact optTruthy_verify_eq _ _ _ _ hfc

/-- C3 witness: at `flag = 3`, `pre` and `stat_post` requested,
`verify_returned_flag_field` returns `True`. -/
theorem verify_returned_flag_field_spec_witness :
    verify_returned_flag_field 3 true true false = some true :=
  (verify_returned_flag_field_spec 3 true true false c4wenv [] c4wpa).1.mpr
    (by decide)

/-- C5: `compare_file_info` returns `True` iff every checked field is equal
between the two objects, where the checked fields are `only_these` minus
`exceptions` when `only_these` is non-empty and otherwise the full category
list (chosen by the type of the first object) minus `exceptions`; on the
first mismatching field it logs that field with its two values and returns
`None` without examining later fields. -/
theorem compare_file_info_spec (isStat : Bool) (f1 f2 : FileInfo)
    (exceptions only_these : List String) :
    (compare_file_info isStat f1 f2 exceptions only_these = .ok ↔
      ∀ a ∈ checkedFields isStat exceptions only_these, f1 a = f2 a) ∧
    (∀ a v1 v2,
      compare_file_info isStat f1 f2 exceptions only_these
        = .mismatch a v1 v2 →
      v1 = f1 a ∧ v2 = f2 a ∧ f1 a ≠ f2 a ∧
        ∃ l1 l2, checkedFields isStat exceptions only_these = l1 ++ a :: l2 ∧
          ∀ b ∈ l1, f1 b = f2 b) := by
  refine ⟨compare_file_info_ok_iff isStat f1 f2 exceptions only_these, ?_⟩
  intro a v1 v2 h
  exact compareFieldsLoop_mismatch f1 f2 _ a v1 v2 h

/-- C5 witness: with `bytes_used` excepted, the remaining stat fields of
`zeroFI` and `c5f2` agree, so `compare_file_info` returns `True`. -/
theorem compare_file_info_spec_witness :
    compare_file_info true zeroFI c5f2 ["bytes_used"] [] = .ok :=
  (compare_file_info_spec true zeroFI c5f2 ["bytes_used"] []).1.mpr (by decide)

/-- C6: on the sofs backend, `metadata_modified_time` is appended to the
updated stat fields — the exception list of the unchanged before/after
check — on every call, regardless of the request; concretely, a sofs
`compare_all_attributes` call with an empty request accepts snapshots that
differ exactly in `metadata_modified_time`. -/
theorem sofs_metadata_always_updated (updStat : List String)
    (exc : ExtraExceptions) :
    "metadata_modified_time" ∈ sofsAdjust "sofs" updStat ∧
    "metadata_modified_time" ∈ statUnchangedExceptions "sofs" updStat exc ∧
    compare_all_attributes "sofs" [] none (some zeroPair) (some c6fout)
      ⟨0, 0⟩ ⟨[], []⟩ = .ok () := by
  refine ⟨?_, ?_, by decide⟩
  · unfold sofsAdjust
    rw [if_pos rfl]
    simp
  · unfold statUnchangedExceptions sofsAdjust
    rw [if_pos rfl]
    simp

/-- C9: `FileSystem.lookup` with `verify=True` raises a descriptive
`AssertionError` on a nonzero status code; with `verify=False` the status
code is returned unchanged in the first position of the result tuple and no
assertion is raised. -/
theorem lookup_spec {Inode Attr : Type} (ret_code : Int) (root : Inode)
    (pa ta : Attr) :
    (ret_code ≠ 0 → FileSystem.lookup (ret_code, root, pa, ta) true
      = .error (.assertionError "Unable to get inode")) ∧
    FileSystem.lookup (ret_code, root, pa, ta) false
      = .ok (ret_code, pa, ta, root) := by
  constructor
  · intro h
    have hb : (ret_code == 0) = false := by simpa using h
    simp [FileSystem.lookup, pyAssert, hb, Bind.bind, Except.bind]
  · rfl

/-- C9 witness: at status code 7, `verify=True` raises and `verify=False`
passes the 7 back. -/
theorem lookup_spec_witness :
    FileSystem.lookup (7, 11, 12, 13) true
        = .error (.assertionError "Unable to get inode") ∧
      FileSystem.lookup ((7 : Int), (11 : Int), (12 : Int), (13 : Int)) false
        = .ok (7, 12, 13, 11) :=
  ⟨(lookup_spec 7 11 12 13).1 (by decide), (lookup_spec 7 11 12 13).2⟩

/-- C10 counterexample: the round trip is NOT the identity (up to zeroed
microseconds) on every timezone-aware datetime at or after the epoch — a
datetime at the epoch instant with utcoffset +1 h comes back shifted by one
hour, because `dt_to_filetime` feeds the wall-clock `timetuple` to
`timegm`. -/
theorem filetime_roundtrip_not_id_nonutc :
    0 ≤ (⟨0, 3600⟩ : PyDatetime).instantUs ∧
    (filetime_to_dt (dt_to_filetime ⟨0, 3600⟩)).instantUs ≠
      (replaceMicrosecondZero ⟨0, 3600⟩).instantUs := by
  constructor
  · decide
  · decide

/-- C10 amended: for every UTC (zero-offset) timezone-aware datetime at or
after the epoch, `filetime_to_dt (dt_to_filetime d)` equals `d` with its
microseconds replaced by zero; in particular the round trip is the identity
on whole-second UTC datetimes and `dt_to_filetime` discards sub-second
precision. -/
theorem filetime_roundtrip_utc (d : PyDatetime) (h0 : d.offsetSec = 0)
    (_h1 : 0 ≤ d.instantUs) :
    filetime_to_dt (dt_to_filetime d) = replaceMicrosecondZero d := by
  unfold filetime_to_dt dt_to_filetime timegmTimetuple replaceMicrosecondZero
  rw [h0]
  have h2 : EPOCH_AS_FILETIME +
      (d.instantUs + 0 * 1000000).fdiv 1000000 * 10000000 - EPOCH_AS_FILETIME
      = (d.instantUs.fdiv 1000000 * 1000000) * 10 := by
    ring_nf
  rw [h2, Int.mul_fdiv_cancel _ (by norm_num)]
  have h3 := Int.fmod_add_fdiv d.instantUs 1000000
  have h4 : d.instantUs.fdiv 1000000 * 1000000
      = d.instantUs - d.instantUs.fmod 1000000 := by linarith
  rw [h4]

/-- C10 amended witness: the round trip floors `1234567 µs` after the epoch
to the whole second. -/
theorem filetime_roundtrip_utc_witness :
    filetime_to_dt (dt_to_filetime ⟨1234567, 0⟩)
      = replaceMicrosecondZero ⟨1234567, 0⟩ :=
  filetime_roundtrip_utc ⟨1234567, 0⟩ rfl (by decide)

/-- C1: whenever `compare_all_attributes` returns without raising, every stat
or extra field that is neither among the requested flags nor in the
applicable exception list (the caller-provided exceptions, plus
`metadata_modified_time` on sofs) is equal between the before and after
snapshots; conversely, if any such field differs, the call does not return
normally (the failing check raises `AssertionError`). -/
theorem compare_all_attributes_nonrequested_unchanged (fs_type : String)
    (req : List String) (attrs : Option PrePostAttributes)
    (fIn fOut : FileInfo × FileInfo) (ct : PyDatetime)
    (exc : ExtraExceptions) :
    (compare_all_attributes fs_type req attrs (some fIn) (some fOut) ct exc
        = .ok () →
      (∀ a ∈ STAT_INFO_ATTRS, a ∉ req → a ∉ exc.stat →
        (fs_type = "sofs" → a ≠ "metadata_modified_time") →
        fIn.1 a = fOut.1 a) ∧
      (∀ a ∈ EXTRA_INFO_ATTRS, a ∉ req → a ∉ exc.extra →
        fIn.2 a = fOut.2 a)) ∧
    (∀ a ∈ STAT_INFO_ATTRS, a ∉ req → a ∉ exc.stat →
      (fs_type = "sofs" → a ≠ "metadata_modified_time") →
      fIn.1 a ≠ fOut.1 a →
      compare_all_attributes fs_type req attrs (some fIn) (some fOut) ct exc
        ≠ .ok ()) ∧
    (∀ a ∈ EXTRA_INFO_ATTRS, a ∉ req → a ∉ exc.extra → fIn.2 a ≠ fOut.2 a →
      compare_all_attributes fs_type req attrs (some fIn) (some fOut) ct exc
        ≠ .ok ()) := by
  have main :
      compare_all_attributes fs_type req attrs (some fIn) (some fOut) ct exc
        = .ok () →
      (∀ a ∈ STAT_INFO_ATTRS, a ∉ req → a ∉ exc.stat →
        (fs_type = "sofs" → a ≠ "metadata_modified_time") →
        fIn.1 a = fOut.1 a) ∧
      (∀ a ∈ EXTRA_INFO_ATTRS, a ∉ req → a ∉ exc.extra →
        fIn.2 a = fOut.2 a) := by
    intro h
    obtain ⟨s, e, hc, _, _, _, hus, hue⟩ :=
      compare_all_ok_inv _ _ _ _ _ _ _ h
    obtain ⟨hstat, _⟩ := stepUnchangedStat_ok _ _ _ _ _ _ hus
    have hext := stepUnchangedExtra_ok _ _ _ _ hue
    obtain ⟨hs_sub, he_sub⟩ := classifyReqFields_sound req s e hc
    constructor
    · intro a ha hreq hexc hsofs
      refine (hstat a ha ?_).symm
      intro hmem
      unfold statUnchangedExceptions at hmem
      rcases List.mem_append.1 hmem with hm | hm
      · rcases mem_sofsAdjust _ _ _ hm with hm' | ⟨hfs, hmeta⟩
        · exact hreq (hs_sub a hm')
        · exact hsofs hfs hmeta
      · exact hexc hm
    · intro a ha hreq hexc
      refine (hext a ha ?_).symm
      intro hmem
      rcases List.mem_append.1 hmem with hm | hm
      · exact hreq (he_sub a hm)
      · exact hexc hm
  refine ⟨main, ?_, ?_⟩
  · intro a ha hreq hexc hsofs hne hok
    exact hne ((main hok).1 a ha hreq hexc hsofs)
  · intro a ha hreq hexc hne hok
    exact hne ((main hok).2 a ha hreq hexc)

/-- C1 witness: a gfs call with exception list `metadata_modified_time`
accepts snapshots differing only there, and the theorem yields equality of
the non-requested `gid` field. -/
theorem compare_all_attributes_nonrequested_unchanged_witness :
    zeroPair.1 "gid" = c6fout.1 "gid" :=
  ((compare_all_attributes_nonrequested_unchanged "gfs" [] none zeroPair
      c6fout ⟨0, 0⟩ ⟨["metadata_modified_time"], []⟩).1 (by decide)).1
    "gid" (by decide) (by decide) (by decide)
    (fun h => absurd h (by decide))

/-- C2 counterexample: a requested `created_time` whose after value converts
to a wall-clock datetime 1 µs AFTER `current_time` — within one second of
it — still makes `compare_all_attributes` raise `AssertionError`, because
the code actually asserts `(current_time - dt_out).seconds == 0` and a
negative 1 µs timedelta normalises to 86399 seconds. -/
theorem compare_all_requested_within_second_cex :
    zeroPair.1 "created_time" ≠ c2fout.1 "created_time" ∧
    (c2ct.instantUs
      - (filetime_to_dt (c2fout.1 "created_time")).instantUs).natAbs
      < 1000000 ∧
    compare_all_attributes "gfs" ["created_time"] none (some zeroPair)
      (some c2fout) c2ct ⟨[], []⟩ = .error (.assertionError "") := by
  exact ⟨by decide, by decide, by decide⟩

/-- C2 amended: for every requested stat field (not special-cased as
`metadata_modified_time` on fsapi/sofs), a `compare_all_attributes` call
that returns normally enforced that the field's before and after values
differ AND that the Python timedelta `current_time - dt_out` has seconds
component zero — i.e. the difference reduced modulo 24 h lies below one
second, so an after value up to one second before `current_time` passes
while one even a microsecond after it fails. -/
theorem compare_all_attributes_requested_updated (fs_type : String)
    (req : List String) (attrs : Option PrePostAttributes)
    (fIn fOut : FileInfo × FileInfo) (ct : PyDatetime)
    (exc : ExtraExceptions)
    (h : compare_all_attributes fs_type req attrs (some fIn) (some fOut) ct
      exc = .ok ())
    (a : String) (ha : a ∈ req) (hstat : a ∈ STAT_INFO_ATTRS)
    (hns : ¬(fs_type ∈ ["fsapi", "sofs"] ∧ a = "metadata_modified_time")) :
    fIn.1 a ≠ fOut.1 a ∧
    tdSeconds (ct.instantUs - (filetime_to_dt (fOut.1 a)).instantUs) = 0 := by
  obtain ⟨s, e, hc, _, _, _, hus, _⟩ := compare_all_ok_inv _ _ _ _ _ _ _ h
  obtain ⟨_, hloop⟩ := stepUnchangedStat_ok _ _ _ _ _ _ hus
  have hmem : a ∈ sofsAdjust fs_type s := by
    have hins : a ∈ s := classifyReqFields_complete req a hstat s e hc ha
    unfold sofsAdjust
    by_cases hfs : fs_type = "sofs"
    · rw [if_pos hfs]
      exact List.mem_append.2 (Or.inl hins)
    · rw [if_neg hfs]
      exact hins
  refine updatedStatLoop_ok _ _ _ _ _ hloop a hmem ?_
  simpa using hns

/-- C2 amended witness: a run whose requested `created_time` lands exactly
on the observation time satisfies both asserted conditions. -/
theorem compare_all_attributes_requested_updated_witness :
    zeroPair.1 "created_time" ≠ c2wfout.1 "created_time" ∧
    tdSeconds (c2ct.instantUs
      - (filetime_to_dt (c2wfout.1 "created_time")).instantUs) = 0 :=
  compare_all_attributes_requested_updated "gfs" ["created_time"] none
    zeroPair c2wfout c2ct ⟨[], []⟩ (by decide) "created_time" (by decide)
    (by decide) (by decide)

theorem pyAssert_verify_ok_iff (flag : Int) (pre sp ep : Bool) (m : String) :
    pyAssert (optTruthy (verify_returned_flag_field flag pre sp ep)) m
      = .ok () ↔ verify_returned_flag_field flag pre sp ep = some true := by
  rw [pyAssert_ok_iff]
  constructor
  · exact optTruthy_verify_eq flag pre sp ep
  · intro h
    rw [h]
    rfl

/-- C7 counterexample: on the gfs backend `check_op_flag_attr` does NOT
exempt `created_time` / `accessed_time` for `create_file`: they are absent
from the stat exception list built for the target `compare_all_attributes`
call, and a concrete gfs `create_file` run whose target `created_time`
changed (with nothing requested) raises `AssertionError`. -/
theorem create_ops_time_exemption_cex :
    "created_time" ∉ (targetExtraExceptions "gfs" "create_file" [] []).stat ∧
    "accessed_time" ∉ (targetExtraExceptions "gfs" "create_file" [] []).stat ∧
    check_op_flag_attr c7env [] [] noSpecial = .error (.assertionError "") :=
  ⟨by decide, by decide, by decide⟩

/-- C7 amended: on the fsapi and sofs backends, every `check_op_flag_attr`
call whose operation is `create_file`, `mkdir` or `symlink` adds
`created_time` and `accessed_time` to the target's stat exception list
before invoking `compare_all_attributes` on the target snapshots (on other
backends they are not added); concretely, the gfs run of the counterexample
passes once the backend is fsapi. -/
theorem create_ops_time_exemption (fs_type opName : String)
    (statT extraT : List (String × SpecialFieldSpec))
    (hfs : fs_type ∈ ["fsapi", "sofs"])
    (hop : opName ∈ ["create_file", "mkdir", "symlink"]) :
    "created_time" ∈ (targetExtraExceptions fs_type opName statT extraT).stat ∧
    "accessed_time" ∈ (targetExtraExceptions fs_type opName statT extraT).stat ∧
    check_op_flag_attr c7envF [] [] noSpecial = .ok () := by
  refine ⟨?_, ?_, by decide⟩
  · unfold targetExtraExceptions
    rw [if_pos hfs]
    dsimp only
    rw [if_pos hop]
    simp
  · unfold targetExtraExceptions
    rw [if_pos hfs]
    dsimp only
    rw [if_pos hop]
    simp

/-- C7 amended witness: fsapi `mkdir` puts both time fields in the target
exception list. -/
theorem create_ops_time_exemption_witness :
    "created_time" ∈ (targetExtraExceptions "fsapi" "mkdir" [] []).stat ∧
    "accessed_time" ∈ (targetExtraExceptions "fsapi" "mkdir" [] []).stat ∧
    check_op_flag_attr c7envF [] [] noSpecial = .ok () :=
  create_ops_time_exemption "fsapi" "mkdir" [] [] (by decide) (by decide)

/-- C8: in `check_op_flag_attr`, the verification of the target's returned
flag field is enforced for every operation with a truthy `target_attr`
except `unlink`, for which it is enforced only when the target's
pre-operation `nlink` exceeds 1; an `unlink` of a singly-linked target skips
it entirely (last conjunct: a full such run with garbage target flags
succeeds). -/
theorem target_flag_check_spec (env : CheckEnv) (req_target : List String)
    (ta : PrePostAttributes) (fib : FileInfo × FileInfo) :
    (env.targetAttr = some ta → env.opName ∉ ["unlink"] →
      (targetFlagCheck env req_target = .ok () ↔
        verify_returned_flag_field ta.flags
          (decide ("return_pre_op_attr" ∈ req_target))
          (decide ("return_stat_post_op_attr" ∈ req_target))
          (decide ("return_extra_post_op_attr" ∈ req_target)) = some true)) ∧
    (env.targetAttr = some ta → env.opName = "unlink" →
      fileInfoTargetBefore env = some fib → fib.1 "nlink" > 1 →
      (targetFlagCheck env req_target = .ok () ↔
        verify_returned_flag_field ta.flags
          (decide ("return_pre_op_attr" ∈ req_target))
          (decide ("return_stat_post_op_attr" ∈ req_target))
          (decide ("return_extra_post_op_attr" ∈ req_target)) = some true)) ∧
    (env.targetAttr = some ta → env.opName = "unlink" →
      fileInfoTargetBefore env = some fib → ¬(fib.1 "nlink" > 1) →
      targetFlagCheck env req_target = .ok ()) ∧
    (env.targetAttr = none → targetFlagCheck env req_target = .ok ()) ∧
    check_op_flag_attr c8env [] [] noSpecial = .ok () := by
  refine ⟨?_, ?_, ?_, ?_, by decide⟩
  · intro hta hop
    unfold targetFlagCheck
    rw [hta]
    dsimp only
    rw [if_pos hop]
    exact pyAssert_verify_ok_iff _ _ _ _ _
  · intro hta hop hfib hnl
    unfold targetFlagCheck
    rw [hta]
    dsimp only
    rw [if_neg (not_not_intro (by simp [hop])), hfib]
    dsimp only
    rw [if_pos hnl]
    exact pyAssert_verify_ok_iff _ _ _ _ _
  · intro hta hop hfib hnl
    unfold targetFlagCheck
    rw [hta]
    dsimp only
    rw [if_neg (not_not_intro (by simp [hop])), hfib]
    dsimp only
    rw [if_neg hnl]
  · intro hta
    unfold targetFlagCheck
    rw [hta]

/-- C8 witness: a `mkdir` with a correct (empty) target flag mask passes the
target flag verification. -/
theorem target_flag_check_spec_witness :
    targetFlagCheck c8wenv [] = .ok () :=
  ((target_flag_check_spec c8wenv [] ⟨0, zeroFI, zeroFI, zeroFI⟩
      zeroPair).1 rfl (by decide)).mpr (by decide)

/-- C4 counterexample: a gfs `check_op_flag_attr` run with
`return_extra_post_op_attr` requested for the parent and an after snapshot
present returns normally although the `dos_flags` field of the inline extra
payload (999) differs from the freshly fetched snapshot (5) — the field is
exempted because it is named in `special_fields`. -/
theorem post_payload_matches_fresh_cex :
    check_op_flag_attr c4env ["return_extra_post_op_attr"] [] c4special
      = .ok () ∧
    (fileInfoParentOut c4env).isSome = true ∧
    "dos_flags" ∈ EXTRA_INFO_ATTRS ∧
    c4env.parentAttr = some c4pa ∧
    c4pa.extra_post_op "dos_flags" ≠ (c4env.getAttrAfter "/p").2 "dos_flags" :=
  ⟨by decide, by decide, by decide, rfl, by decide⟩

/-- C4 amended: whenever `check_op_flag_attr` returns normally, for each of
parent and target with a truthy returned payload and an existing
post-operation snapshot, every stat (resp. extra) field of the inline
post-op payload that is requested via `return_stat_post_op_attr`
(resp. `return_extra_post_op_attr`) and is not named in the surviving
`special_fields` entry for that object and category equals the corresponding
field of the freshly fetched after snapshot. -/
theorem check_op_post_payload_matches_fresh (env : CheckEnv)
    (req_parent req_target : List String) (special : SpecialFields)
    (h : check_op_flag_attr env req_parent req_target special = .ok ()) :
    (∀ pa po, env.parentAttr = some pa → fileInfoParentOut env = some po →
      "return_stat_post_op_attr" ∈ req_parent →
      ∀ f ∈ STAT_INFO_ATTRS, pa.stat_post_op f = po.1 f) ∧
    (∀ pa po, env.parentAttr = some pa → fileInfoParentOut env = some po →
      "return_extra_post_op_attr" ∈ req_parent →
      ∀ f ∈ EXTRA_INFO_ATTRS,
        f ∉ (poppedSpecial special.extra_parent req_parent).map Prod.fst →
        pa.extra_post_op f = po.2 f) ∧
    (∀ ta tout, env.targetAttr = some ta → fileInfoTargetOut env = some tout →
      "return_stat_post_op_attr" ∈ req_target →
      ∀ f ∈ STAT_INFO_ATTRS,
        f ∉ (poppedSpecial special.stat_target req_target).map Prod.fst →
        ta.stat_post_op f = tout.1 f) ∧
    (∀ ta tout, env.targetAttr = some ta → fileInfoTargetOut env = some tout →
      "return_extra_post_op_attr" ∈ req_target →
      ∀ f ∈ EXTRA_INFO_ATTRS, ta.extra_post_op f = tout.2 f) := by
  obtain ⟨hpf, htf, hpsp, htab, hcap, hcat⟩ :=
    check_op_ok_inv env req_parent req_target special h
  refine ⟨?_, ?_, ?_, ?_⟩
  · intro pa po hpa hpo hmem f hf
    unfold parentStatPostCheck at hpsp
    rw [if_pos hmem, hpa, hpo] at hpsp
    simp only [Option.map_some'] at hpsp
    exact payloadFieldsCheck_ok _ _ _ hpsp f hf
  · intro pa po hpa hpo hmem f hf hns
    obtain ⟨s, e, hc, _, _, hep, _, _⟩ :=
      compare_all_ok_inv _ _ _ _ _ _ _ hcap
    rw [hpa, hpo] at hep
    have := stepExtraPostCmp_ok req_parent pa po _ hmem hep
    refine (this f hf ?_).symm
    rw [parentExtraExceptions_extra]
    exact hns
  · intro ta tout hta hto hmem f hf hns
    have hop := fileInfoTargetOut_some_op env tout hto
    obtain ⟨hstream, _⟩ := targetAfterBlock_ok_inv env req_target _ _ hop htab
    have hplc := hstream hmem
    rw [hta, hto] at hplc
    simp only [Option.map_some'] at hplc
    by_cases hcase :
      f ∉ ["length", "bytes_used"] ∨ strContains env.opName "stream" = false
    · exact payloadFieldsCheckStream_ok _ _ _ _ hplc f hf hcase
    · push_neg at hcase
      obtain ⟨hfl, _⟩ := hcase
      obtain ⟨s, e, hc, _, hsp, _, _, _⟩ :=
        compare_all_ok_inv _ _ _ _ _ _ _ hcat
      rw [hta, hto] at hsp
      have hcmp := stepStatPostCmp_ok req_target ta tout _ hmem hsp
      refine (hcmp f hf ?_).symm
      intro hmem2
      have hsub := mem_targetExtraExceptions_stat env.fs_type env.opName
        _ _ f hmem2
      have hfl2 : f = "length" ∨ f = "bytes_used" := by simpa using hfl
      rcases hfl2 with rfl | rfl <;>
        rcases hsub with hs | hs | hs | hs | hs <;>
          first
          | exact hns hs
          | exact absurd hs (by decide)
  · intro ta tout hta hto hmem f hf
    have hop := fileInfoTargetOut_some_op env tout hto
    obtain ⟨_, hextra⟩ := targetAfterBlock_ok_inv env req_target _ _ hop htab
    have hplc := hextra hmem
    rw [hta, hto] at hplc
    simp only [Option.map_some'] at hplc
    exact payloadFieldsCheck_ok _ _ _ hplc f hf

/-- C4 amended witness: on a clean gfs run requesting stat post attributes
for the parent, the payload's `length` matches the fresh snapshot. -/
theorem check_op_post_payload_matches_fresh_witness :
    c4wpa.stat_post_op "length" = (c4wenv.getAttrAfter "/p").1 "length" :=
  (check_op_post_payload_matches_fresh c4wenv ["return_stat_post_op_attr"]
      [] noSpecial (by decide)).1 c4wpa (c4wenv.getAttrAfter "/p") rfl rfl
    (by decide) "length" (by decide)

end Fsapi
